import Mathlib

/-!
Verification model of the blastit license server (src/server.js).

The server keeps one `licenses` table keyed by lower-cased email and exposes
three routes: `POST /check-license` (read-only entitlement query),
`POST /admin/add-license` (admin grant guarded by a shared key) and
`POST /stripe/webhook` (signature-gated billing event reconciliation).

Modelling conventions:
- Time is an integer count of milliseconds since the Unix epoch, as in the
  JavaScript `Date` value. `new Date()` at a route invocation is passed in as
  an explicit `now` argument.
- `Date.prototype.setMonth` arithmetic (proleptic Gregorian, UTC) is modelled
  by `addMonths`, built from a civil-calendar decomposition of the day number.
  Months are tracked through a shifted month index S = 12 * year + month0 - 2,
  so that March is month 0 of its shifted year; `setMonth` month overflow into
  the year then becomes plain addition on S.
- Nullable JavaScript values are `Option`; a thrown exception is `none` at the
  result type of the function that throws.
- The database is a map from email key to row plus a serial counter; the SQL
  upsert of `upsertLicense` is a single atomic conditional insert-or-update.
- The billing SDK call `stripe.webhooks.constructEvent` and the JSON parser
  are external collaborators; they are modelled from the spec by an abstract
  signature value `SigHeader` that binds the shared secret to the exact raw
  payload bytes, and by a `parse` function passed as a parameter. The customer
  lookup `stripe.customers.retrieve` is likewise a parameter returning `none`
  when the call fails and `some e` for a customer whose `email` field is `e`.
-/

/-! ## Calendar arithmetic (model of JS Date month arithmetic, UTC) -/

/-- Day-of-shifted-year of the first day of shifted month `sm` (0 = March). -/
def doyOfShiftedMonth (sm : Int) : Int := (153 * sm + 2) / 5

/-- Day number (days since 1970-01-01) of the first day of shifted month `S`. -/
def firstDayOfShiftedMonth (S : Int) : Int :=
  365 * (S / 12) + (S / 12) / 4 - (S / 12) / 100 + (S / 12) / 400
    + doyOfShiftedMonth (S % 12) - 719468

/-- Day number of day `d` (1-based) of shifted month `S`; the ECMAScript
MakeDay, with day-of-month overflow resolving into later months. -/
def makeDay (S d : Int) : Int := firstDayOfShiftedMonth S + (d - 1)

/-- Gregorian 400-year era of day number `z` (eras start on 1 March). -/
def eraOf (z : Int) : Int := (z + 719468) / 146097

/-- Day of era, in [0, 146096]. -/
def doeOf (z : Int) : Int := z + 719468 - 146097 * eraOf z

/-- Century within the era, in [0, 3]; the last century is the long one. -/
def centOf (z : Int) : Int := min (doeOf z / 36524) 3

/-- Day of century. -/
def docOf (z : Int) : Int := doeOf z - 36524 * centOf z

/-- Quadrennium within the century, in [0, 24]; the last one of a short
century has 1460 days, all others 1461. -/
def quadOf (z : Int) : Int := min (docOf z / 1461) 24

/-- Day of quadrennium. -/
def doqOf (z : Int) : Int := docOf z - 1461 * quadOf z

/-- Year within the quadrennium, in [0, 3]; the last year is the leap one. -/
def yqOf (z : Int) : Int := min (doqOf z / 365) 3

/-- Day of shifted year, in [0, 365]. -/
def doyOf (z : Int) : Int := doqOf z - 365 * yqOf z

/-- Year of era, in [0, 399]. -/
def yoeOf (z : Int) : Int := 100 * centOf z + 4 * quadOf z + yqOf z

/-- Shifted month within the year, in [0, 11]. -/
def mpOf (z : Int) : Int := (5 * doyOf z + 2) / 153

/-- Shifted month index of day number `z`. -/
def civilS (z : Int) : Int := 12 * (400 * eraOf z + yoeOf z) + mpOf z

/-- Day of month (1-based) of day number `z`. -/
def civilD (z : Int) : Int := doyOf z - (153 * mpOf z + 2) / 5 + 1

def msPerDay : Int := 86400000

/-- Model of `d.setMonth(d.getMonth() + k)` on a Date holding timestamp `t`:
decompose `t` into civil date plus time-of-day, advance the month index by
`k`, and rebuild the timestamp via MakeDay. -/
def addMonths (t k : Int) : Int :=
  msPerDay * makeDay (civilS (t / msPerDay) + k) (civilD (t / msPerDay))
    + t % msPerDay

theorem doe_bounds (z : Int) : 0 ≤ doeOf z ∧ doeOf z ≤ 146096 := by
  unfold doeOf eraOf; omega

theorem cent_bounds (z : Int) :
    0 ≤ centOf z ∧ centOf z ≤ 3 ∧ 0 ≤ docOf z ∧ docOf z ≤ 36524 := by
  have h := doe_bounds z
  unfold docOf centOf; omega

theorem quad_bounds (z : Int) :
    0 ≤ quadOf z ∧ quadOf z ≤ 24 ∧ 0 ≤ doqOf z ∧ doqOf z ≤ 1460 := by
  have h := cent_bounds z
  unfold doqOf quadOf; omega

theorem yq_bounds (z : Int) :
    0 ≤ yqOf z ∧ yqOf z ≤ 3 ∧ 0 ≤ doyOf z ∧ doyOf z ≤ 365 := by
  have h := quad_bounds z
  unfold doyOf yqOf; omega

theorem yoe_bounds (z : Int) : 0 ≤ yoeOf z ∧ yoeOf z ≤ 399 := by
  have h1 := cent_bounds z
  have h2 := quad_bounds z
  have h3 := yq_bounds z
  unfold yoeOf; omega

theorem mp_bounds (z : Int) :
    0 ≤ mpOf z ∧ mpOf z ≤ 11 ∧ 1 ≤ civilD z ∧ civilD z ≤ 31 := by
  have h := yq_bounds z
  unfold civilD mpOf; omega

theorem yd_split (z : Int) :
    365 * yoeOf z + yoeOf z / 4 - yoeOf z / 100
      = 36524 * centOf z + 1461 * quadOf z + 365 * yqOf z := by
  have h1 := cent_bounds z
  have h2 := quad_bounds z
  have h3 := yq_bounds z
  unfold yoeOf; omega

/-- The civil decomposition inverts MakeDay: rebuilding the day number from
the extracted month index and day of month gives the day number back. -/
theorem civil_makeDay (z : Int) : makeDay (civilS z) (civilD z) = z := by
  have hmp := mp_bounds z
  have hyoe := yoe_bounds z
  have hyd := yd_split z
  have hdoe : z + 719468 = 146097 * eraOf z + doeOf z := by unfold doeOf; ring
  have hdoc : doeOf z = 36524 * centOf z + docOf z := by unfold docOf; ring
  have hdoq : docOf z = 1461 * quadOf z + doqOf z := by unfold doqOf; ring
  have hdoy : doqOf z = 365 * yqOf z + doyOf z := by unfold doyOf; ring
  have h12 : (12 * (400 * eraOf z + yoeOf z) + mpOf z) / 12 = 400 * eraOf z + yoeOf z := by
    omega
  have h12b : (12 * (400 * eraOf z + yoeOf z) + mpOf z) % 12 = mpOf z := by omega
  have h4 : (400 * eraOf z + yoeOf z) / 4 = 100 * eraOf z + yoeOf z / 4 := by omega
  have h100 : (400 * eraOf z + yoeOf z) / 100 = 4 * eraOf z + yoeOf z / 100 := by omega
  have h400 : (400 * eraOf z + yoeOf z) / 400 = eraOf z := by omega
  unfold makeDay firstDayOfShiftedMonth doyOfShiftedMonth civilS civilD
  rw [h12, h12b, h4, h100, h400]
  omega

/-- Every month is at least 28 days long. -/
theorem month_gap (S : Int) :
    firstDayOfShiftedMonth S + 28 ≤ firstDayOfShiftedMonth (S + 1) := by
  unfold firstDayOfShiftedMonth doyOfShiftedMonth
  rcases (by omega : S % 12 = 11 ∨ S % 12 < 11) with h | h
  · have h1 : (S + 1) / 12 = S / 12 + 1 := by omega
    have h2 : (S + 1) % 12 = 0 := by omega
    rw [h1, h2]
    omega
  · have h1 : (S + 1) / 12 = S / 12 := by omega
    have h2 : (S + 1) % 12 = S % 12 + 1 := by omega
    rw [h1, h2]
    omega

theorem month_mono (S : Int) (k : Nat) :
    firstDayOfShiftedMonth S + 28 * k ≤ firstDayOfShiftedMonth (S + k) := by
  induction k with
  | zero => simp
  | succ n ih =>
      have h := month_gap (S + n)
      have harr : (S : Int) + ((n : Nat) + 1 : Nat) = (S + (n : Nat)) + 1 := by
        push_cast; ring
      rw [harr]
      push_cast
      push_cast at ih
      omega

/-- Adding at least one month moves any timestamp strictly forward. -/
theorem addMonths_future (t k : Int) (hk : 1 ≤ k) : t < addMonths t k := by
  have hrt := civil_makeDay (t / msPerDay)
  obtain ⟨n, hn⟩ : ∃ n : Nat, k = (n : Int) + 1 := ⟨(k - 1).toNat, by omega⟩
  have hmono := month_mono (civilS (t / msPerDay) + 1) n
  have hgap := month_gap (civilS (t / msPerDay))
  unfold makeDay at hrt
  unfold addMonths makeDay msPerDay at *
  have harr : civilS (t / 86400000) + k = civilS (t / 86400000) + 1 + (n : Int) := by
    omega
  rw [harr]
  omega

/-! ## Data model (table `licenses`) -/

/-- Row of the `licenses` table. -/
structure License where
  id : Nat
  email : String
  active : Bool
  expires_at : Option Int
  stripe_customer_id : Option String
  stripe_subscription_id : Option String
  created_at : Int
  updated_at : Int
deriving DecidableEq, Repr

/-- The persisted state: rows keyed by the unique `email` column, plus the
serial id counter. -/
structure Db where
  rows : String → Option License
  nextId : Nat

def dbEmpty : Db := ⟨fun _ => none, 1⟩

/-- Model of `email.toLowerCase()`: character-wise lowering of the string
(the inputs of interest are ASCII email addresses). -/
def lowerKey (s : String) : String := ⟨s.data.map Char.toLower⟩

/-! ## Helpers (`upsertLicense`, `findLicenseByEmail`) -/

/-- Body of `upsertLicense` once `email.toLowerCase()` has succeeded: the
single-statement insert-or-update on conflict of the email key. On conflict
it overwrites `active`, `expires_at` and both ref columns, refreshes
`updated_at`, and leaves `email`, `id` and `created_at` untouched. -/
def upsertRow (e : String) (cust sub : Option String) (exp : Option Int)
    (active : Bool) (now : Int) (db : Db) : License × Db :=
  let key := lowerKey e
  match db.rows key with
  | none =>
      let lic : License :=
        ⟨db.nextId, key, active, exp, cust, sub, now, now⟩
      (lic, ⟨fun s => if s = key then some lic else db.rows s, db.nextId + 1⟩)
  | some old =>
      let lic : License :=
        ⟨old.id, old.email, active, exp, cust, sub, old.created_at, now⟩
      (lic, ⟨fun s => if s = key then some lic else db.rows s, db.nextId⟩)

/-- Model of `upsertLicense`: a `none` email makes `email.toLowerCase()`
throw a TypeError before any query runs, modelled as result `none`. -/
def upsertLicense (e : Option String) (cust sub : Option String)
    (exp : Option Int) (active : Bool) (now : Int) (db : Db) :
    Option (License × Db) :=
  e.map fun s => upsertRow s cust sub exp active now db

/-- Model of `findLicenseByEmail`. -/
def findLicenseByEmail (e : String) (db : Db) : Option License :=
  db.rows (lowerKey e)

/-! ## Route `POST /check-license` -/

/-- JSON body sent by the check-license route. The `expiresAt` field is
absent (`none`) on every negative answer and present, but possibly null
(`some none`), on the positive one. -/
structure CheckResponse where
  valid : Bool
  message : String
  expiresAt : Option (Option Int)
deriving DecidableEq, Repr

/-- Model of the check-license route. `email` is the request body field
(`none` for a missing field; the empty string is also falsy in JS, so both
yield the missing-email answer). `dbFail` models the database query throwing,
which the route catches and maps to the fail-closed server-error answer. The
result is (HTTP status, response body, database after the call); every branch
answers via `res.json`, hence status 200. -/
def checkLicense (email : Option String) (now : Int) (db : Db)
    (dbFail : Bool) : Nat × CheckResponse × Db :=
  match email with
  | none => (200, ⟨false, "Missing email.", none⟩, db)
  | some e =>
    if e = "" then (200, ⟨false, "Missing email.", none⟩, db)
    else if dbFail then (200, ⟨false, "Server error.", none⟩, db)
    else
      match findLicenseByEmail e db with
      | none => (200, ⟨false, "Not licensed.", none⟩, db)
      | some lic =>
        if !lic.active then (200, ⟨false, "Subscription inactive.", none⟩, db)
        else
          match lic.expires_at with
          | some x =>
              if x < now then (200, ⟨false, "Subscription expired.", none⟩, db)
              else (200, ⟨true, "Valid license.", some (some x)⟩, db)
          | none => (200, ⟨true, "Valid license.", some none⟩, db)

/-! ## Route `POST /admin/add-license` -/

/-- Model of the admin add-license route. `adminKey` is the `x-admin-key`
header, `envKey` the configured admin key. Months defaults to 1 at the JSON
layer; the route itself accepts any integer. Result is (status, database
after the call, license row echoed on success). -/
def adminAddLicense (adminKey : Option String) (envKey : String)
    (email : Option String) (months : Int) (now : Int) (db : Db) :
    Nat × Db × Option License :=
  if adminKey = some envKey then
    match email with
    | none => (200, db, none)
    | some e =>
      if e = "" then (200, db, none)
      else
        let r := upsertRow e none none (some (addMonths now months)) true now db
        (200, r.2, some r.1)
  else (403, db, none)

/-! ## Route `POST /stripe/webhook` -/

/-- Modelled from the spec: the signature header of the billing provider,
abstracted as the value binding the shared secret to the exact raw payload
bytes it signs. Verification succeeds exactly when the header was computed
with the same secret over the same bytes. -/
structure SigHeader where
  secretPart : String
  payloadPart : String
deriving DecidableEq, Repr

/-- Modelled from the spec: computing the provider signature of `payload`
under `secret`. -/
def hmacSig (secret payload : String) : SigHeader := ⟨secret, payload⟩

/-- Dynamic payload carried in `event.data.object`; only the fields the
handler reads are modelled, each nullable. `customer_details` is itself
nullable: reading `.email` on a missing object throws. -/
structure EventDataObject where
  customer_details : Option (Option String)
  customer : Option String
  subscription : Option String
deriving DecidableEq, Repr

/-- Verified billing event: a type tag string and the payload object. -/
structure StripeEvent where
  type : String
  data_object : EventDataObject
deriving DecidableEq, Repr

/-- The switch over `event.type` in the webhook route. `retrieve` models
`stripe.customers.retrieve`: `none` when the call fails (including a null
customer id), `some e` for a customer whose `email` field is `e`. Result
`none` means the branch threw (caught by the route, leaving the database
as it was at the throw, which is always before any write); `some db2` is
normal completion. -/
def handleEvent (ev : StripeEvent) (retrieve : Option String → Option (Option String))
    (now : Int) (db : Db) : Option Db :=
  if ev.type = "checkout.session.completed" then
    match ev.data_object.customer_details with
    | none => none
    | some emailOpt =>
        (upsertLicense emailOpt ev.data_object.customer ev.data_object.subscription
          (some (addMonths now 1)) true now db).map Prod.snd
  else if ev.type = "invoice.payment_succeeded" then
    match retrieve ev.data_object.customer with
    | none => none
    | some emailOpt =>
        (upsertLicense emailOpt ev.data_object.customer ev.data_object.subscription
          (some (addMonths now 1)) true now db).map Prod.snd
  else if ev.type = "customer.subscription.deleted" then
    match retrieve ev.data_object.customer with
    | none => none
    | some emailOpt =>
        (upsertLicense emailOpt none none (some now) false now db).map Prod.snd
  else some db

/-- Model of the webhook route. `parse` is the JSON decoding of the raw
payload (external collaborator, applied only after the signature over the
exact raw bytes has been verified). On verification failure the route
answers 400 and touches nothing; otherwise it attempts the handler, catches
any handler error, and acknowledges with 200 either way. Result is
(status, database after the call). -/
def stripeWebhook (rawBody : String) (sig : SigHeader) (secret : String)
    (parse : String → StripeEvent)
    (retrieve : Option String → Option (Option String))
    (now : Int) (db : Db) : Nat × Db :=
  if sig = hmacSig secret rawBody then
    match handleEvent (parse rawBody) retrieve now db with
    | none => (200, db)
    | some db2 => (200, db2)
  else (400, db)

/-! ## Claim C4: evaluation order of the license query -/

/-- Reference function written from the specified case list of the query:
missing email input, then no row for the normalized identity, then the
inactive short-circuit regardless of expiration, then expiration (present
and strictly in the past at evaluation time), otherwise valid with the
stored expiration echoed (possibly absent). -/
def isEntitledSpec (email : Option String) (now : Int) (db : Db) : CheckResponse :=
  match email with
  | none => ⟨false, "Missing email.", none⟩
  | some e =>
    if e = "" then ⟨false, "Missing email.", none⟩
    else
      match db.rows (lowerKey e) with
      | none => ⟨false, "Not licensed.", none⟩
      | some l =>
        if l.active = false then ⟨false, "Subscription inactive.", none⟩
        else if l.expires_at.any fun x => decide (x < now) then
          ⟨false, "Subscription expired.", none⟩
        else ⟨true, "Valid license.", some l.expires_at⟩

/-- C4: for every email, evaluation time and database state, the
check-license route answers exactly as the specified ordered case analysis
(missing identity, not licensed, inactive before expiration, expired by
strict comparison at query time, otherwise valid with expiresAt echoed). -/
theorem check_license_matches_spec (email : Option String) (now : Int) (db : Db) :
    (checkLicense email now db false).2.1 = isEntitledSpec email now db := by
  cases email with
  | none => rfl
  | some e =>
    by_cases he : e = "" <;>
      simp only [checkLicense, isEntitledSpec, findLicenseByEmail, he,
        if_true, if_false, Bool.false_eq_true, reduceIte]
    cases hr : db.rows (lowerKey e) with
    | none => simp [hr]
    | some l =>
      cases hact : l.active with
      | false => simp [hr, hact]
      | true =>
        cases hexp : l.expires_at with
        | none => simp [hr, hact, hexp]
        | some x =>
          by_cases hx : x < now <;> simp [hr, hact, hexp, hx]

/-! ## Claim C2: the expiration boundary -/

/-- C2 counterexample: a license active with `expires_at` exactly equal to
the evaluation time is answered valid by the route, while the claim demands
valid=false for every expiresAt less than or equal to now. -/
theorem check_expiry_at_now_is_valid_cex :
    (checkLicense (some "a@x.com") 1000
      ⟨fun s => if s = "a@x.com" then
          some ⟨1, "a@x.com", true, some 1000, none, none, 0, 0⟩ else none, 2⟩
      false).2.1
      = ⟨true, "Valid license.", some (some 1000)⟩ := by decide

/-- C2 amended: for an active license with an expiration timestamp, the
query answers expired exactly when the timestamp is strictly less than the
evaluation time; at a timestamp equal to now the license is still valid. -/
theorem check_expiry_strict_boundary (e : String) (db : Db) (now x : Int)
    (l : License) (he : e ≠ "") (hrow : db.rows (lowerKey e) = some l)
    (hact : l.active = true) (hexp : l.expires_at = some x) :
    ((checkLicense (some e) now db false).2.1
        = ⟨false, "Subscription expired.", none⟩ ↔ x < now)
    ∧ (x = now →
        (checkLicense (some e) now db false).2.1
          = ⟨true, "Valid license.", some (some x)⟩) := by
  constructor
  · by_cases hx : x < now <;>
      simp [checkLicense, findLicenseByEmail, hrow, hact, he, hexp, hx]
  · intro hxe
    have hx : ¬ x < now := by omega
    simp [checkLicense, findLicenseByEmail, hrow, hact, he, hexp, hx]

/-- C2 witness: the amended boundary at concrete inputs. -/
theorem check_expiry_strict_boundary_witness :
    (checkLicense (some "a@x.com") 7
      ⟨fun s => if s = "a@x.com" then
          some ⟨1, "a@x.com", true, some 7, none, none, 0, 0⟩ else none, 2⟩
      false).2.1
      = ⟨true, "Valid license.", some (some 7)⟩ :=
  (check_expiry_strict_boundary "a@x.com"
    ⟨fun s => if s = "a@x.com" then
        some ⟨1, "a@x.com", true, some 7, none, none, 0, 0⟩ else none, 2⟩
    7 7 ⟨1, "a@x.com", true, some 7, none, none, 0, 0⟩
    (by decide) (by decide) rfl rfl).2 rfl

/-! ## Claim C10: the query is fail-closed and read-only -/

/-- C10: a persistence failure during the lookup is answered fail-closed:
success status, valid=false with the server-error message; and for every
outcome of the lookup the query mutates nothing and never answers with an
error status. -/
theorem check_license_fail_closed (e : String) (now : Int) (db : Db)
    (he : e ≠ "") :
    (checkLicense (some e) now db true).2.1 = ⟨false, "Server error.", none⟩
    ∧ (∀ dbFail, (checkLicense (some e) now db dbFail).1 = 200
        ∧ (checkLicense (some e) now db dbFail).2.2 = db) := by
  constructor
  · simp [checkLicense, he]
  · intro dbFail
    cases dbFail with
    | true => simp [checkLicense, he]
    | false =>
      cases hr : findLicenseByEmail e db with
      | none => simp [checkLicense, he, hr]
      | some l =>
        cases hact : l.active with
        | false => simp [checkLicense, he, hr, hact]
        | true =>
          cases hexp : l.expires_at with
          | none => simp [checkLicense, he, hr, hact, hexp]
          | some x =>
            by_cases hx : x < now <;> simp [checkLicense, he, hr, hact, hexp, hx]

/-- C10 witness: fail-closed answer at concrete inputs. -/
theorem check_license_fail_closed_witness :
    (checkLicense (some "a@x.com") 0 dbEmpty true).2.1
      = ⟨false, "Server error.", none⟩ :=
  (check_license_fail_closed "a@x.com" 0 dbEmpty (by decide)).1

/-! ## Claim C1: the webhook acknowledgment is gated by the signature -/

/-- C1: the webhook answers the non-success status 400 exactly when the
signature header was not computed with the shared secret over the exact raw
payload; on any such failure (including a tampered payload carrying the
signature of the original payload) nothing is written; and a verified event
whose type is none of the three recognized ones is acknowledged with 200 and
writes nothing. -/
theorem stripe_webhook_ack_iff_signature
    (rawBody tampered : String) (sig : SigHeader) (secret : String)
    (parse : String → StripeEvent)
    (retrieve : Option String → Option (Option String)) (now : Int) (db : Db)
    (hne : tampered ≠ rawBody) :
    ((stripeWebhook rawBody sig secret parse retrieve now db).1 = 400
        ↔ sig ≠ hmacSig secret rawBody)
    ∧ (sig ≠ hmacSig secret rawBody →
        stripeWebhook rawBody sig secret parse retrieve now db = (400, db))
    ∧ (stripeWebhook tampered (hmacSig secret rawBody) secret parse retrieve now db
        = (400, db))
    ∧ ((parse rawBody).type ≠ "checkout.session.completed" →
        (parse rawBody).type ≠ "invoice.payment_succeeded" →
        (parse rawBody).type ≠ "customer.subscription.deleted" →
        stripeWebhook rawBody (hmacSig secret rawBody) secret parse retrieve now db
          = (200, db)) := by
  refine ⟨?_, ?_, ?_, ?_⟩
  · by_cases h : sig = hmacSig secret rawBody
    · cases hE : handleEvent (parse rawBody) retrieve now db <;>
        simp [stripeWebhook, h, hE]
    · simp [stripeWebhook, h]
  · intro h
    simp [stripeWebhook, h]
  · have h3 : rawBody ≠ tampered := Ne.symm hne
    simp [stripeWebhook, hmacSig, h3]
  · intro h1 h2 h3
    simp [stripeWebhook, handleEvent, h1, h2, h3]

/-- C1 witness: a tampered payload carrying the signature of the original
payload is rejected with 400 and the database is untouched. -/
theorem stripe_webhook_ack_iff_signature_witness :
    stripeWebhook "tampered-body" (hmacSig "whsec" "raw-body") "whsec"
      (fun _ => ⟨"other.event", ⟨none, none, none⟩⟩) (fun _ => none) 0 dbEmpty
      = (400, dbEmpty) :=
  (stripe_webhook_ack_iff_signature "raw-body" "tampered-body"
    ⟨"whsec", "raw-body"⟩ "whsec"
    (fun _ => ⟨"other.event", ⟨none, none, none⟩⟩) (fun _ => none) 0 dbEmpty
    (by decide)).2.2.1

/-! ## Claim C5: identity-resolution failure drops the event -/

/-- C5: for the two events whose identity comes from the external customer
lookup, a failing lookup or a customer without an email makes the handler
throw before any write; the route still acknowledges with 200 and the
database is exactly as before, so no row keyed on an empty or null identity
is ever created by such an event. -/
theorem webhook_resolution_failure_drops_event
    (rawBody secret : String) (parse : String → StripeEvent)
    (retrieve : Option String → Option (Option String)) (now : Int) (db : Db)
    (htype : (parse rawBody).type = "invoice.payment_succeeded"
        ∨ (parse rawBody).type = "customer.subscription.deleted")
    (hres : retrieve (parse rawBody).data_object.customer = none
        ∨ retrieve (parse rawBody).data_object.customer = some none) :
    stripeWebhook rawBody (hmacSig secret rawBody) secret parse retrieve now db
      = (200, db) := by
  rcases htype with h | h <;> rcases hres with hr | hr <;>
    simp [stripeWebhook, handleEvent, h, hr, upsertLicense]

/-- C5 witness: a subscription-canceled event whose customer lookup fails is
acknowledged with 200 and leaves the database untouched. -/
theorem webhook_resolution_failure_drops_event_witness :
    stripeWebhook "raw-body" (hmacSig "whsec" "raw-body") "whsec"
      (fun _ => ⟨"customer.subscription.deleted", ⟨none, some "cus_1", none⟩⟩)
      (fun _ => none) 0 dbEmpty
      = (200, dbEmpty) :=
  webhook_resolution_failure_drops_event "raw-body" "whsec"
    (fun _ => ⟨"customer.subscription.deleted", ⟨none, some "cus_1", none⟩⟩)
    (fun _ => none) 0 dbEmpty (Or.inr rfl) (Or.inl rfl)

/-! ## Claim C3: effect of a subscription-canceled event -/

/-- C3 counterexample: an existing license holding billing refs loses them
on a canceled event; the refs are overwritten with null by the full-replace
upsert, while the claim asserts they stay unchanged. -/
theorem subscription_deleted_refs_cleared_cex :
    ((⟨fun s => if s = "a@x.com" then
          some ⟨1, "a@x.com", true, some 999999, some "cus_1", some "sub_1", 0, 0⟩
        else none, 2⟩ : Db).rows "a@x.com").map
        (fun l => (l.stripe_customer_id, l.stripe_subscription_id))
      = some (some "cus_1", some "sub_1")
    ∧ (((stripeWebhook "raw-body" (hmacSig "whsec" "raw-body") "whsec"
          (fun _ => ⟨"customer.subscription.deleted", ⟨none, some "cus_1", none⟩⟩)
          (fun c => if c = some "cus_1" then some (some "a@x.com") else none)
          500
          ⟨fun s => if s = "a@x.com" then
              some ⟨1, "a@x.com", true, some 999999, some "cus_1", some "sub_1", 0, 0⟩
            else none, 2⟩).2.rows "a@x.com").map
          (fun l => (l.stripe_customer_id, l.stripe_subscription_id)))
      = some (none, none) := by
  exact ⟨rfl, rfl⟩

/-- C3 amended: reconciling a canceled event for an identity with an
existing license keeps the row (same id, email and createdAt) and sets
active=false and expiresAt=now, but the billing refs are cleared to null by
the full-replace upsert rather than left unchanged; rows of every other
identity are untouched. -/
theorem subscription_deleted_terminal_state
    (rawBody secret : String) (parse : String → StripeEvent)
    (retrieve : Option String → Option (Option String))
    (cdet : Option (Option String)) (cr sub : Option String) (e : String)
    (now : Int) (db : Db) (l0 : License)
    (hev : parse rawBody = ⟨"customer.subscription.deleted", ⟨cdet, cr, sub⟩⟩)
    (hres : retrieve cr = some (some e))
    (hrow : db.rows (lowerKey e) = some l0) :
    (stripeWebhook rawBody (hmacSig secret rawBody) secret parse retrieve now db).1
      = 200
    ∧ (stripeWebhook rawBody (hmacSig secret rawBody) secret parse retrieve now db).2.rows
        (lowerKey e)
      = some ⟨l0.id, l0.email, false, some now, none, none, l0.created_at, now⟩
    ∧ (∀ s, s ≠ lowerKey e →
        (stripeWebhook rawBody (hmacSig secret rawBody) secret parse retrieve now db).2.rows s
          = db.rows s) := by
  refine ⟨?_, ?_, ?_⟩
  · simp [stripeWebhook, handleEvent, hev, hres, upsertLicense, upsertRow, hrow]
  · simp [stripeWebhook, handleEvent, hev, hres, upsertLicense, upsertRow, hrow]
  · intro s hs
    simp [stripeWebhook, handleEvent, hev, hres, upsertLicense, upsertRow, hrow, hs]

/-- C3 witness: the amended terminal state at concrete inputs. -/
theorem subscription_deleted_terminal_state_witness :
    (stripeWebhook "raw-body" (hmacSig "whsec" "raw-body") "whsec"
        (fun _ => ⟨"customer.subscription.deleted", ⟨none, some "cus_1", none⟩⟩)
        (fun c => if c = some "cus_1" then some (some "a@x.com") else none)
        500
        ⟨fun s => if s = "a@x.com" then
            some ⟨1, "a@x.com", true, some 999999, some "cus_1", some "sub_1", 0, 0⟩
          else none, 2⟩).2.rows "a@x.com"
      = some ⟨1, "a@x.com", false, some 500, none, none, 0, 500⟩ :=
  (subscription_deleted_terminal_state "raw-body" "whsec"
    (fun _ => ⟨"customer.subscription.deleted", ⟨none, some "cus_1", none⟩⟩)
    (fun c => if c = some "cus_1" then some (some "a@x.com") else none)
    none (some "cus_1") none "a@x.com" 500
    ⟨fun s => if s = "a@x.com" then
        some ⟨1, "a@x.com", true, some 999999, some "cus_1", some "sub_1", 0, 0⟩
      else none, 2⟩
    ⟨1, "a@x.com", true, some 999999, some "cus_1", some "sub_1", 0, 0⟩
    rfl rfl rfl).2.1

/-! ## Claim C6: repeated admin grants -/

/-- C6 counterexample: the same admin grant applied twice in succession at
times 0 and 1 produces licenses that differ in `expires_at` as well, because
the expiration is recomputed from the later processing time; the claim
allows only `updated_at` to differ. -/
theorem admin_grant_twice_expiry_cex :
    (adminAddLicense (some "k") "k" (some "a@x.com") 1 0 dbEmpty).2.2.map
        License.expires_at = some (some 2678400000)
    ∧ (adminAddLicense (some "k") "k" (some "a@x.com") 1 1
        (adminAddLicense (some "k") "k" (some "a@x.com") 1 0 dbEmpty).2.1).2.2.map
        License.expires_at = some (some 2678400001) := by
  exact ⟨rfl, rfl⟩

/-- C6 amended: applying the same admin grant twice for the same identity
yields a license identical in id, email, active flag, billing refs and
createdAt, with updatedAt advancing to the later processing time and
expiresAt recomputed from the later processing time; when the two
applications are processed at the same instant the whole database row is
identical. -/
theorem admin_grant_idempotent_mod_time
    (k e : String) (months n1 n2 : Int) (db : Db)
    (he : e ≠ "") (h12 : n1 ≤ n2) :
    ((adminAddLicense (some k) k (some e) months n2
          (adminAddLicense (some k) k (some e) months n1 db).2.1).2.2.map
        fun l => (l.id, l.email, l.active, l.stripe_customer_id,
          l.stripe_subscription_id, l.created_at))
      = ((adminAddLicense (some k) k (some e) months n1 db).2.2.map
        fun l => (l.id, l.email, l.active, l.stripe_customer_id,
          l.stripe_subscription_id, l.created_at))
    ∧ (adminAddLicense (some k) k (some e) months n1 db).2.2.map
        License.updated_at = some n1
    ∧ ((adminAddLicense (some k) k (some e) months n2
          (adminAddLicense (some k) k (some e) months n1 db).2.1).2.2.map
        License.updated_at) = some n2
    ∧ (adminAddLicense (some k) k (some e) months n1 db).2.2.map
        License.expires_at = some (some (addMonths n1 months))
    ∧ ((adminAddLicense (some k) k (some e) months n2
          (adminAddLicense (some k) k (some e) months n1 db).2.1).2.2.map
        License.expires_at) = some (some (addMonths n2 months))
    ∧ (n1 = n2 → ∀ s,
        (adminAddLicense (some k) k (some e) months n2
            (adminAddLicense (some k) k (some e) months n1 db).2.1).2.1.rows s
          = (adminAddLicense (some k) k (some e) months n1 db).2.1.rows s) := by
  cases hdb : db.rows (lowerKey e) with
  | none =>
      refine ⟨?_, ?_, ?_, ?_, ?_, ?_⟩ <;>
        simp [adminAddLicense, upsertRow, he, hdb]
      intro hn
      subst hn
      exact ⟨rfl, rfl⟩
  | some old =>
      refine ⟨?_, ?_, ?_, ?_, ?_, ?_⟩ <;>
        simp [adminAddLicense, upsertRow, he, hdb]
      intro hn
      subst hn
      exact ⟨rfl, rfl⟩

/-- C6 witness: the amended statement at concrete inputs. -/
theorem admin_grant_idempotent_mod_time_witness :
    (adminAddLicense (some "k") "k" (some "a@x.com") 1 0 dbEmpty).2.2.map
        License.updated_at = some 0 :=
  (admin_grant_idempotent_mod_time "k" "a@x.com" 1 0 0 dbEmpty
    (by decide) (le_refl 0)).2.1

/-! ## Claim C7: admin grant after a billing checkout clears the refs -/

/-- C7: after a checkout-completed event for an identity, an immediate admin
grant for the same identity overwrites the billing refs with null and leaves
createdAt exactly as on the row the checkout produced; the row still exists
after both reconciliations. -/
theorem checkout_then_admin_grant_clears_refs
    (rawBody secret k e : String) (cust sub : Option String)
    (parse : String → StripeEvent)
    (retrieve : Option String → Option (Option String))
    (months n1 n2 : Int) (db : Db)
    (hev : parse rawBody
      = ⟨"checkout.session.completed", ⟨some (some e), cust, sub⟩⟩)
    (he : e ≠ "") :
    ((adminAddLicense (some k) k (some e) months n2
        (stripeWebhook rawBody (hmacSig secret rawBody) secret parse retrieve n1 db).2).2.2.map
      fun l => (l.stripe_customer_id, l.stripe_subscription_id))
      = some (none, none)
    ∧ ((adminAddLicense (some k) k (some e) months n2
        (stripeWebhook rawBody (hmacSig secret rawBody) secret parse retrieve n1 db).2).2.2.map
      License.created_at)
      = (findLicenseByEmail e
          (stripeWebhook rawBody (hmacSig secret rawBody) secret parse retrieve n1 db).2).map
        License.created_at
    ∧ (findLicenseByEmail e
        (stripeWebhook rawBody (hmacSig secret rawBody) secret parse retrieve n1 db).2).isSome
      = true := by
  cases hdb : db.rows (lowerKey e) <;>
    simp [stripeWebhook, handleEvent, hev, upsertLicense, upsertRow,
      adminAddLicense, findLicenseByEmail, he, hdb]

/-- C7 witness: refs are null after checkout then admin grant, at concrete
inputs. -/
theorem checkout_then_admin_grant_clears_refs_witness :
    ((adminAddLicense (some "k") "k" (some "a@x.com") 1 7
        (stripeWebhook "raw-body" (hmacSig "whsec" "raw-body") "whsec"
          (fun _ => ⟨"checkout.session.completed",
            ⟨some (some "a@x.com"), some "cus_1", some "sub_1"⟩⟩)
          (fun _ => none) 3 dbEmpty).2).2.2.map
      fun l => (l.stripe_customer_id, l.stripe_subscription_id))
      = some (none, none) :=
  (checkout_then_admin_grant_clears_refs "raw-body" "whsec" "k" "a@x.com"
    (some "cus_1") (some "sub_1")
    (fun _ => ⟨"checkout.session.completed",
      ⟨some (some "a@x.com"), some "cus_1", some "sub_1"⟩⟩)
    (fun _ => none) 1 3 7 dbEmpty rfl (by decide)).1

/-! ## Claim C9: case-insensitive identity -/

/-- C9: two emails with the same lower-casing resolve to the same row: the
query reads the same row for both, and a grant keyed through either is found
by a query through the other. -/
theorem case_insensitive_identity
    (e1 e2 : String) (cust sub : Option String) (exp : Option Int)
    (act : Bool) (now : Int) (db : Db)
    (h : lowerKey e1 = lowerKey e2) :
    findLicenseByEmail e1 db = findLicenseByEmail e2 db
    ∧ findLicenseByEmail e2 (upsertRow e1 cust sub exp act now db).2
        = some (upsertRow e1 cust sub exp act now db).1 := by
  constructor
  · simp [findLicenseByEmail, h]
  · cases hdb : db.rows (lowerKey e1) <;>
      simp [findLicenseByEmail, upsertRow, hdb, ← h]

/-- C9 witness: the spec pair of emails hits one shared row. -/
theorem case_insensitive_identity_witness :
    findLicenseByEmail "user@example.com"
        (upsertRow "User@Example.com" none none none true 0 dbEmpty).2
      = some (upsertRow "User@Example.com" none none none true 0 dbEmpty).1 :=
  (case_insensitive_identity "User@Example.com" "user@example.com"
    none none none true 0 dbEmpty (by decide)).2

/-! ## Claim C8: grants set a strictly future expiration -/

/-- C8 counterexample: the admin route accepts months = 0, and the resulting
license expires exactly at the processing time, not strictly in the future. -/
theorem admin_grant_zero_months_cex :
    (adminAddLicense (some "k") "k" (some "a@x.com") 0 0 dbEmpty).2.2.map
        License.expires_at = some (some 0)
    ∧ ¬ ((0 : Int) < 0) := by
  exact ⟨rfl, by decide⟩

/-- C8 amended: for at least one month (the admin route with months at least
1, and the billing renewals which always add exactly one month), the
expiration written by a grant is strictly in the future at processing time;
months values at most 0 escape this (counterexample months = 0). -/
theorem grant_expiry_strictly_future
    (k e : String) (months now : Int) (db : Db)
    (he : e ≠ "") (hm : 1 ≤ months) :
    (adminAddLicense (some k) k (some e) months now db).2.2.map
        License.expires_at = some (some (addMonths now months))
    ∧ now < addMonths now months
    ∧ now < addMonths now 1
    ∧ (∀ (em : String) (c s : Option String) (db0 : Db),
        (upsertRow em c s (some (addMonths now 1)) true now db0).1.expires_at
          = some (addMonths now 1)) := by
  refine ⟨?_, addMonths_future now months hm, addMonths_future now 1 (by omega), ?_⟩
  · cases hdb : db.rows (lowerKey e) <;> simp [adminAddLicense, upsertRow, he, hdb]
  · intro em c s db0
    cases hdb : db0.rows (lowerKey em) <;> simp [upsertRow, hdb]

/-- C8 witness: the amended statement at concrete inputs. -/
theorem grant_expiry_strictly_future_witness :
    (0 : Int) < addMonths 0 1 :=
  (grant_expiry_strictly_future "k" "a@x.com" 1 0 dbEmpty
    (by decide) (le_refl 1)).2.1

